import Mathlib

/-!
Verification of the PECMAC6 I2C current-sensor driver (src/lib/PECMAC6.py)
against its natural-language specification.

The driver is embedded shallowly:
  - byte values are Nat (Python ints restricted to 0..255 by the transport);
  - Python lists of bytes are List Nat;
  - Python dicts are association lists built with dictInsert, which models
    Python dict assignment (replace the value of an existing key in place,
    otherwise append at the end, preserving insertion order);
  - Python floats are modelled as rationals (all values arising here are exact);
  - the I2C transport is an abstract Bus; writeto raises OSError iff
    writeOk = false, readfrom(addr, n) is read n, which either raises
    or returns the bytes read (the transport returns exactly n bytes on
    success; theorems that need the length carry it as a hypothesis);
  - a raised-and-propagated OSError is Except.error (), a caught one that
    the method turns into return None is Except.ok none;
  - log.error-level events are collected in a faults list (debug/info
    logging has no observable effect and is dropped).
-/

/-- Command code 0x01: read current (src line 31). -/
def PECMAC125A_COMMAND_1 : Nat := 0x01

/-- Command code 0x02: read device ID (src line 32). -/
def PECMAC125A_COMMAND_2 : Nat := 0x02

/-- Command code 0x03: read calibration (src line 33). -/
def PECMAC125A_COMMAND_3 : Nat := 0x03

/-- Header byte 1 (src line 35). -/
def PECMAC125A_HEADER_BYTE_1 : Nat := 0x92

/-- Header byte 2 (src line 36). -/
def PECMAC125A_HEADER_BYTE_2 : Nat := 0x6A

/-- Reserved byte (src line 37). -/
def PECMAC125A_RESERVED : Nat := 0x00

/-- Scale divisor: 1 for mA, 1000 for A (src line 55). -/
def PECMAC125A_SCALE : Nat := 1

/-- Decimal digit characters of a natural number, most significant first,
as produced by Python str(int) for a non-negative int. The first argument
is structural fuel; it is exact whenever fuel is at least the number. -/
def decimalDigits (fuel n : Nat) : List Char :=
  match fuel with
  | 0 => [Nat.digitChar n]
  | f + 1 =>
    if n < 10 then [Nat.digitChar n]
    else decimalDigits f (n / 10) ++ [Nat.digitChar (n % 10)]

/-- Decimal rendering of a natural number, as Python str(int) produces it. -/
def pyStr (n : Nat) : String := ⟨decimalDigits n n⟩

/-- The numeric value read back from a digit string. Used only to prove that
decimal rendering is injective. -/
def digitsVal (l : List Char) : Nat :=
  List.foldl (fun acc c => 10 * acc + (c.toNat - 48)) 0 l

/-- The dict key used for channel n, "SENSOR_" followed by the decimal
number of the channel (src lines 106, 131). -/
def sensorKey (n : Nat) : String := "SENSOR_" ++ pyStr n

/-- Checksum for an I2C write (src lines 137-143): sum the bytes of the
command, then mask with 0b11111111. -/
def calculate_checksum (command : List Nat) : Nat :=
  (List.foldl (fun checksum each => checksum + each) 0 command) &&& 0b11111111

/-- Expected checksum computed by the read-side verifier (src lines 146-149):
a plain sum of all bytes except the last, with NO modulo-256 reduction
(zip(range(len(data)-1), data) pairs exactly the first len(data)-1 bytes). -/
def checksumExpected (data : List Nat) : Nat :=
  List.foldl (fun expected byte => expected + byte) 0 (data.take (data.length - 1))

/-- Received checksum, data[-1] (src line 147). The default 0 is never used:
every call site reads at least one byte from the transport. -/
def checksumReceived (data : List Nat) : Nat := data.getLastD 0

/-- Read-side checksum verifier (src lines 145-151). Returns true iff the
mismatch branch is taken and the mismatch is logged. The source compares
with the identity test "expected is not received"; on the MicroPython
target, identity on small ints coincides with numeric inequality, which is
how it is modelled here. -/
def verify_checksum (data : List Nat) : Bool :=
  checksumExpected data != checksumReceived data

/-- An error-level log event emitted by a driver method. -/
inductive Fault where
  | osError : Fault
  | checksumMismatch (expected received : Nat) : Fault
deriving DecidableEq, Repr

/-- Abstract I2C transport (the machine.I2C object). writeto raises OSError
iff writeOk is false; read n models readfrom(addr, n), which raises OSError
or returns the bytes read. On success the transport returns exactly n bytes;
theorems that rely on the length carry it as a hypothesis. -/
structure Bus where
  writeOk : Bool
  read : Nat → Except Unit (List Nat)

/-- Observable outcome of one driver method call: the command frames written
to the bus, the error-level log events, and the returned value. The result
is Except.error () when an uncaught OSError propagates to the caller,
Except.ok none when a caught OSError makes the method return None, and
Except.ok (some v) on the normal path. -/
structure Outcome (α : Type) where
  writes : List (List Nat)
  faults : List Fault
  result : Except Unit (Option α)

/-- Python dict assignment d[k] = v on an insertion-ordered association
list: replace the value of an existing key in place, otherwise append. -/
def dictInsert {α : Type} (d : List (String × α)) (k : String) (v : α) :
    List (String × α) :=
  if d.any (fun p => p.1 == k) then
    d.map (fun p => if p.1 == k then (k, v) else p)
  else d ++ [(k, v)]

/-- Command frame construction, the pattern shared by get_info (src lines
76-77), get_current (src lines 92-93) and get_calibration (src lines
113-114): a 7-byte list [header1, header2, code, a, b, reserved, reserved]
with the checksum appended. -/
def buildCommand (code a b : Nat) : List Nat :=
  let command := [PECMAC125A_HEADER_BYTE_1, PECMAC125A_HEADER_BYTE_2, code, a, b,
    PECMAC125A_RESERVED, PECMAC125A_RESERVED]
  command ++ [calculate_checksum command]

/-- Decoding loop of get_current (src lines 101-107): for i in
range(0, (end-start)+1), take bytes 3i, 3i+1, 3i+2 as msb1, msb, lsb and
store msb1*65536 + msb*256 + lsb/SCALE under the key for channel start+i.
Indexing is modelled with getD; with a response of the exact requested
length every index is in range, so the default is never used there.
The Lean parameter e stands for the Python parameter named end. -/
def decodeCurrent (data : List Nat) (start e : Nat) : List (String × ℚ) :=
  List.foldl (fun current i =>
      let msb1 := data.getD (i * 3) 0
      let msb := data.getD (1 + i * 3) 0
      let lsb := data.getD (2 + i * 3) 0
      dictInsert current (sensorKey (start + i))
        ((msb1 : ℚ) * 65536 + (msb : ℚ) * 256 + (lsb : ℚ) / (PECMAC125A_SCALE : ℚ)))
    [] (List.range (e - start + 1))

/-- Decoding loop of get_calibration (src lines 127-131): for i in
range(0, (end-start)+1), take bytes 2i, 2i+1 as msb, lsb and store
msb*256 + lsb under the key for channel start+i. -/
def decodeCalibration (data : List Nat) (start e : Nat) : List (String × ℚ) :=
  List.foldl (fun calibration i =>
      let msb := data.getD (i * 2) 0
      let lsb := data.getD (1 + i * 2) 0
      dictInsert calibration (sensorKey (start + i)) ((msb : ℚ) * 256 + (lsb : ℚ)))
    [] (List.range (e - start + 1))

/-- get_current (src lines 90-110). Everything sits inside one
try/except OSError: a write or read fault is logged and turned into
return None. On a successful read of ((end-start)+1)*3+1 bytes the
checksum is verified (advisory logging only) and the decoded dict is
returned. Exactly one command frame is written per call: the source
performs no chunking of the requested range. -/
def get_current (start e : Nat) (bus : Bus) : Outcome (List (String × ℚ)) :=
  let command := buildCommand PECMAC125A_COMMAND_1 start e
  if bus.writeOk then
    match bus.read ((e - start + 1) * 3 + 1) with
    | Except.ok current_data =>
        { writes := [command]
          faults :=
            if verify_checksum current_data then
              [Fault.checksumMismatch (checksumExpected current_data)
                (checksumReceived current_data)]
            else []
          result := Except.ok (some (decodeCurrent current_data start e)) }
    | Except.error _ =>
        { writes := [command], faults := [Fault.osError], result := Except.ok none }
  else
    { writes := [command], faults := [Fault.osError], result := Except.ok none }

/-- get_info (src lines 74-88). One try/except OSError around write and
read; returns the tuple (id_data[0], id_data[1], id_data[2]) of sensor
type, max rated current and channel count, or None on a transport fault.
No checksum verification is performed on the identity response. -/
def get_info (bus : Bus) : Outcome (Nat × Nat × Nat) :=
  let command := buildCommand PECMAC125A_COMMAND_2 PECMAC125A_RESERVED PECMAC125A_RESERVED
  if bus.writeOk then
    match bus.read 7 with
    | Except.ok id_data =>
        { writes := [command], faults := []
          result := Except.ok (some (id_data.getD 0 0, id_data.getD 1 0, id_data.getD 2 0)) }
    | Except.error _ =>
        { writes := [command], faults := [Fault.osError], result := Except.ok none }
  else
    { writes := [command], faults := [Fault.osError], result := Except.ok none }

/-- get_calibration (src lines 112-132). Only the writeto call sits inside
a try/except OSError (src lines 116-120): a write fault is logged and
turned into return None, but the readfrom call at src line 123 is outside
any try block, so a read fault propagates to the caller uncaught
(Except.error ()). On a successful read the checksum is verified
(advisory) and the decoded dict is returned. -/
def get_calibration (start e : Nat) (bus : Bus) : Outcome (List (String × ℚ)) :=
  let command := buildCommand PECMAC125A_COMMAND_3 start e
  if bus.writeOk then
    match bus.read ((e - start + 1) * 2 + 1) with
    | Except.ok calibration_data =>
        { writes := [command]
          faults :=
            if verify_checksum calibration_data then
              [Fault.checksumMismatch (checksumExpected calibration_data)
                (checksumReceived calibration_data)]
            else []
          result := Except.ok (some (decodeCalibration calibration_data start e)) }
    | Except.error _ =>
        { writes := [command], faults := [], result := Except.error () }
  else
    { writes := [command], faults := [Fault.osError], result := Except.ok none }

/-- Persistent driver attributes set in __init__ (src lines 58-64) and
never assigned afterwards: the device address and the channel count. -/
structure DriverState where
  addr : Nat
  channels : Nat

/-- get_current as a state-passing function over the driver attributes.
The method body reads self only for the bus handle, the address and the
logger and contains no attribute assignment, so the state passes through
unchanged. -/
def get_currentS (st : DriverState) (start e : Nat) (bus : Bus) :
    Outcome (List (String × ℚ)) × DriverState :=
  (get_current start e bus, st)

/-- get_calibration as a state-passing function over the driver
attributes; like get_current it performs no attribute assignment. -/
def get_calibrationS (st : DriverState) (start e : Nat) (bus : Bus) :
    Outcome (List (String × ℚ)) × DriverState :=
  (get_calibration start e bus, st)

/-- A healthy bus fixture: writes succeed, every read returns 19 zero
bytes (the exact response length of a 6-channel current read). -/
def busA : Bus :=
  { writeOk := true, read := fun _ => Except.ok (List.replicate 19 0) }

/-- A bus fixture whose writes fail with OSError. -/
def busWriteFail : Bus :=
  { writeOk := false, read := fun _ => Except.ok [] }

/-- A bus fixture whose writes succeed and whose reads fail with OSError. -/
def busReadFail : Bus :=
  { writeOk := true, read := fun _ => Except.error () }

/-- A bus fixture returning 19 bytes that fail checksum verification
(eighteen 1-bytes sum to 18, the trailing byte is 1). -/
def busBadChecksum : Bus :=
  { writeOk := true, read := fun _ => Except.ok (List.replicate 19 1) }

theorem digitsVal_append_singleton (l : List Char) (c : Char) :
    digitsVal (l ++ [c]) = 10 * digitsVal l + (c.toNat - 48) := by
  simp [digitsVal, List.foldl_append]

theorem digitChar_toNat_sub (d : Nat) (h : d < 10) :
    (Nat.digitChar d).toNat - 48 = d := by
  interval_cases d <;> rfl

theorem digitsVal_decimalDigits :
    ∀ fuel n : Nat, n ≤ fuel + 9 → digitsVal (decimalDigits fuel n) = n := by
  intro fuel
  induction fuel with
  | zero =>
    intro n hn
    simp only [decimalDigits, digitsVal, List.foldl]
    have : n < 10 := by omega
    rw [digitChar_toNat_sub n this]
    omega
  | succ f ih =>
    intro n hn
    by_cases h : n < 10
    · simp only [decimalDigits, if_pos h, digitsVal, List.foldl]
      rw [digitChar_toNat_sub n h]
      omega
    · simp only [decimalDigits, if_neg h]
      rw [digitsVal_append_singleton,
        digitChar_toNat_sub (n % 10) (Nat.mod_lt n (by norm_num)),
        ih (n / 10) (by omega)]
      omega

theorem pyStr_injective : Function.Injective pyStr := by
  intro m n h
  have hd : decimalDigits m m = decimalDigits n n := congrArg String.data h
  have hm := digitsVal_decimalDigits m m (by omega)
  have hn := digitsVal_decimalDigits n n (by omega)
  rw [← hm, ← hn, hd]

theorem sensorKey_injective : Function.Injective sensorKey := by
  intro m n h
  apply pyStr_injective
  have hd : ("SENSOR_" ++ pyStr m).data = ("SENSOR_" ++ pyStr n).data :=
    congrArg String.data h
  simp only [String.data_append] at hd
  exact String.ext (List.append_cancel_left hd)

theorem calculate_checksum_eq_sum_mod (command : List Nat) :
    calculate_checksum command = command.sum % 256 := by
  rw [calculate_checksum, Nat.and_pow_two_sub_one_eq_mod _ 8, ← List.sum_eq_foldl]

theorem calculate_checksum_lt (command : List Nat) :
    calculate_checksum command < 256 := by
  rw [calculate_checksum_eq_sum_mod]
  exact Nat.mod_lt _ (by norm_num)

theorem dictInsert_of_not_mem {α : Type} (d : List (String × α)) (k : String)
    (v : α) (h : ∀ p ∈ d, p.1 ≠ k) : dictInsert d k v = d ++ [(k, v)] := by
  rw [dictInsert, if_neg]
  simp only [List.any_eq_true, beq_iff_eq, not_exists, not_and]
  exact h

theorem foldl_dictInsert_eq_map {α : Type} (key : Nat → String)
    (hkey : Function.Injective key) (val : Nat → α) (n : Nat) :
    List.foldl (fun d i => dictInsert d (key i) (val i)) [] (List.range n) =
      (List.range n).map (fun i => (key i, val i)) := by
  induction n with
  | zero => rfl
  | succ m ih =>
    rw [List.range_succ, List.foldl_append, ih, List.map_append, List.foldl_cons,
      List.foldl_nil, List.map_cons, List.map_nil]
    apply dictInsert_of_not_mem
    intro p hp
    rw [List.mem_map] at hp
    obtain ⟨i, hi, rfl⟩ := hp
    rw [List.mem_range] at hi
    intro hcontra
    exact absurd (hkey hcontra) (Nat.ne_of_lt hi)

theorem sensorKey_add_injective (s : Nat) :
    Function.Injective (fun i => sensorKey (s + i)) := by
  intro a b h
  exact Nat.add_left_cancel (sensorKey_injective h)

theorem decodeCurrent_eq_map (data : List Nat) (s e : Nat) :
    decodeCurrent data s e = (List.range (e - s + 1)).map (fun i =>
      (sensorKey (s + i),
        ((data.getD (i * 3) 0 : ℚ) * 65536 + (data.getD (1 + i * 3) 0 : ℚ) * 256 +
          (data.getD (2 + i * 3) 0 : ℚ) / (PECMAC125A_SCALE : ℚ)))) :=
  foldl_dictInsert_eq_map _ (sensorKey_add_injective s) _ _

theorem decodeCalibration_eq_map (data : List Nat) (s e : Nat) :
    decodeCalibration data s e = (List.range (e - s + 1)).map (fun i =>
      (sensorKey (s + i),
        ((data.getD (i * 2) 0 : ℚ) * 256 + (data.getD (1 + i * 2) 0 : ℚ)))) :=
  foldl_dictInsert_eq_map _ (sensorKey_add_injective s) _ _

theorem decodeCurrent_keys (data : List Nat) (s e : Nat) :
    (decodeCurrent data s e).map Prod.fst = (List.range' s (e - s + 1)).map sensorKey := by
  rw [decodeCurrent_eq_map, List.range'_eq_map_range, List.map_map, List.map_map]
  rfl

theorem decodeCalibration_keys (data : List Nat) (s e : Nat) :
    (decodeCalibration data s e).map Prod.fst =
      (List.range' s (e - s + 1)).map sensorKey := by
  rw [decodeCalibration_eq_map, List.range'_eq_map_range, List.map_map, List.map_map]
  rfl

theorem sensorKey_range'_nodup (s n : Nat) :
    ((List.range' s n).map sensorKey).Nodup :=
  (List.nodup_range' s n 1 (by norm_num)).map sensorKey_injective

theorem decodeCurrent_length (data : List Nat) (s e : Nat) :
    (decodeCurrent data s e).length = e - s + 1 := by
  rw [decodeCurrent_eq_map, List.length_map, List.length_range]

theorem decodeCalibration_length (data : List Nat) (s e : Nat) :
    (decodeCalibration data s e).length = e - s + 1 := by
  rw [decodeCalibration_eq_map, List.length_map, List.length_range]

/-- C2: the claim states that checksum verification flags a mismatch iff the
trailing byte differs from the modulo-256 sum of the preceding bytes. The
code computes the plain sum without reducing it modulo 256 (the masking
step present in calculate_checksum is missing from the verifier), so a
frame whose trailing byte equals the modulo-256 sum is still flagged
whenever the plain sum reaches 256. Failing input: the frame
[200, 200, 144], whose plain sum 400 reduces to 144 = trailing byte, yet
verify_checksum takes the mismatch branch. -/
theorem C2_verify_flags_valid_frame :
    checksumExpected [200, 200, 144] % 256 = checksumReceived [200, 200, 144] ∧
    verify_checksum [200, 200, 144] = true := by
  decide

/-- C4: for every command code and parameter pair in byte range 0-255, the
command frame built for transmission is the 8-byte sequence
[0x92, 0x6A, code, a, b, 0x00, 0x00, checksum] whose final byte equals the
sum of the preceding 7 bytes modulo 256. -/
theorem C4_frame_layout : ∀ code a b : Nat, code < 256 → a < 256 → b < 256 →
    buildCommand code a b =
      [0x92, 0x6A, code, a, b, 0x00, 0x00,
        ([0x92, 0x6A, code, a, b, 0x00, 0x00] : List Nat).sum % 256] ∧
    (buildCommand code a b).length = 8 := by
  intro code a b _ _ _
  constructor
  · simp only [buildCommand, calculate_checksum_eq_sum_mod, PECMAC125A_HEADER_BYTE_1,
      PECMAC125A_HEADER_BYTE_2, PECMAC125A_RESERVED]
    rfl
  · rfl

/-- C4 witness: the frame property instantiated at code 0x01 with
parameters (1, 6). -/
theorem C4_frame_layout_witness :
    (0x01 : Nat) < 256 ∧ (0x01 : Nat) < 256 ∧ (0x06 : Nat) < 256 ∧
    (buildCommand 0x01 0x01 0x06 =
      [0x92, 0x6A, 0x01, 0x01, 0x06, 0x00, 0x00,
        ([0x92, 0x6A, 0x01, 0x01, 0x06, 0x00, 0x00] : List Nat).sum % 256] ∧
     (buildCommand 0x01 0x01 0x06).length = 8) :=
  ⟨by decide, by decide, by decide,
    C4_frame_layout 0x01 0x01 0x06 (by decide) (by decide) (by decide)⟩

/-- C5 counterexample: the claim states that the frame for command code
0x01 with parameters (1, 6) carries checksum byte 0xF4; in fact
0x92 + 0x6A + 0x01 + 0x01 + 0x06 = 0x104, which masked to a byte is 0x04,
so the built frame differs from the claimed one. -/
theorem C5_checksum_not_F4 :
    buildCommand 0x01 0x01 0x06 ≠ [0x92, 0x6A, 0x01, 0x01, 0x06, 0x00, 0x00, 0xF4] := by
  decide

/-- C5 amended: building the command frame for command code 0x01 with
parameters (1, 6) produces exactly [0x92, 0x6A, 0x01, 0x01, 0x06, 0x00,
0x00, 0x04], i.e. the checksum byte for this command is 0x04. -/
theorem C5_frame_example :
    buildCommand 0x01 0x01 0x06 = [0x92, 0x6A, 0x01, 0x01, 0x06, 0x00, 0x00, 0x04] := by
  decide

/-- C6 counterexample: the claim states that decoding the response
[0, 3, 232, 0, 7, 208, checksum] for range [1, 2] yields the map with keys
"channel_1" and "channel_2"; the decoder keys its entries "SENSOR_1" and
"SENSOR_2" instead, so neither claimed key is present in the decoded map. -/
theorem C6_no_channel_keys :
    List.lookup "channel_1" (decodeCurrent [0, 3, 232, 0, 7, 208, 194] 1 2) = none ∧
    List.lookup "channel_2" (decodeCurrent [0, 3, 232, 0, 7, 208, 194] 1 2) = none := by
  decide

/-- C6 amended: decoding a current response with bytes
[0, 3, 232, 0, 7, 208, checksum] for the range [1, 2] at scale divisor 1
yields exactly the map from "SENSOR_1" to 1000.0 and "SENSOR_2" to 2000.0. -/
theorem C6_decode_example :
    decodeCurrent [0, 3, 232, 0, 7, 208, 194] 1 2 =
      [("SENSOR_1", (1000 : ℚ)), ("SENSOR_2", (2000 : ℚ))] := by
  rw [decodeCurrent_eq_map]
  show List.map _ (List.range 2) = _
  rw [show List.range 2 = [0, 1] from rfl]
  simp only [List.map_cons, List.map_nil, List.getD]
  norm_num [PECMAC125A_SCALE]
  constructor
  · decide
  · decide

/-- C8: repeated identical queries (current or calibration, same range)
against an unchanged device state give identical decoded results, and the
driver state is passed through unchanged, so no hidden mutable driver
state affects decoding between the two calls. -/
theorem C8_idempotent_queries : ∀ (st : DriverState) (s e : Nat) (bus : Bus),
    (get_currentS st s e bus).2 = st ∧
    (get_calibrationS st s e bus).2 = st ∧
    (get_currentS ((get_currentS st s e bus).2) s e bus).1.result =
      (get_currentS st s e bus).1.result ∧
    (get_calibrationS ((get_calibrationS st s e bus).2) s e bus).1.result =
      (get_calibrationS st s e bus).1.result := by
  intro st s e bus
  exact ⟨rfl, rfl, rfl, rfl⟩

/-- C10: the outbound checksum computation returns a value below 256 for
every list of naturals, and consequently every command frame consists of 8
values that are each valid bytes when the code and parameters are bytes. -/
theorem C10_checksum_is_byte :
    (∀ command : List Nat, calculate_checksum command < 256) ∧
    (∀ code a b : Nat, code < 256 → a < 256 → b < 256 →
      (buildCommand code a b).all (fun x => decide (x < 256)) = true ∧
      (buildCommand code a b).length = 8) := by
  constructor
  · exact calculate_checksum_lt
  · intro code a b hc ha hb
    refine ⟨?_, rfl⟩
    rw [List.all_eq_true]
    intro x hx
    rw [decide_eq_true_eq]
    simp only [buildCommand, PECMAC125A_HEADER_BYTE_1, PECMAC125A_HEADER_BYTE_2,
      PECMAC125A_RESERVED, List.mem_append, List.mem_cons, List.mem_singleton,
      List.not_mem_nil, or_false] at hx
    rcases hx with hx | hx
    · rcases hx with rfl | rfl | rfl | rfl | rfl | rfl | rfl <;> omega
    · rcases hx with rfl
      exact calculate_checksum_lt _

/-- C10 witness: the checksum of an arbitrary large-byte list is a byte,
and the frame for command 0x01 with parameters (1, 6) is 8 valid bytes. -/
theorem C10_checksum_is_byte_witness :
    calculate_checksum [123456, 654321] < 256 ∧
    ((buildCommand 0x01 0x01 0x06).all (fun x => decide (x < 256)) = true ∧
     (buildCommand 0x01 0x01 0x06).length = 8) :=
  ⟨C10_checksum_is_byte.1 [123456, 654321],
    C10_checksum_is_byte.2 0x01 0x01 0x06 (by decide) (by decide) (by decide)⟩

/-- C1 counterexample: the claim states that for a range with
end - start >= 5 the current-read entry point issues
ceil((end-start+1)/5) sub-requests; for the range [1, 6] that would be 2,
but get_current writes exactly one command frame on the bus: the source
performs no chunking. -/
theorem C1_no_chunking :
    (get_current 1 6 busA).writes.length = 1 ∧
    (get_current 1 6 busA).writes.length ≠ 2 := by
  decide

/-- C1 amended: get_current issues exactly one sub-request covering the
whole requested range, whatever its width; given a successful read, the
result map of that single unchunked call has exactly end-start+1 entries
keyed by the channels start..end in order, with no duplicates and no
gaps. -/
theorem C1_single_request : ∀ (s e : Nat) (bus : Bus) (data : List Nat),
    bus.writeOk = true → bus.read ((e - s + 1) * 3 + 1) = Except.ok data →
    (get_current s e bus).writes = [buildCommand PECMAC125A_COMMAND_1 s e] ∧
    (get_current s e bus).result = Except.ok (some (decodeCurrent data s e)) ∧
    (decodeCurrent data s e).map Prod.fst = (List.range' s (e - s + 1)).map sensorKey ∧
    (decodeCurrent data s e).length = e - s + 1 ∧
    ((decodeCurrent data s e).map Prod.fst).Nodup := by
  intro s e bus data hw hr
  refine ⟨?_, ?_, decodeCurrent_keys data s e, decodeCurrent_length data s e, ?_⟩
  · simp [get_current, hw, hr]
  · simp [get_current, hw, hr]
  · rw [decodeCurrent_keys]
    exact sensorKey_range'_nodup s (e - s + 1)

/-- C1 witness: the single-request property instantiated at range [1, 6]
on the healthy bus fixture. -/
theorem C1_single_request_witness :
    busA.writeOk = true ∧
    busA.read ((6 - 1 + 1) * 3 + 1) = Except.ok (List.replicate 19 0) ∧
    ((get_current 1 6 busA).writes = [buildCommand PECMAC125A_COMMAND_1 1 6] ∧
     (get_current 1 6 busA).result =
       Except.ok (some (decodeCurrent (List.replicate 19 0) 1 6)) ∧
     (decodeCurrent (List.replicate 19 0) 1 6).map Prod.fst =
       (List.range' 1 (6 - 1 + 1)).map sensorKey ∧
     (decodeCurrent (List.replicate 19 0) 1 6).length = 6 - 1 + 1 ∧
     ((decodeCurrent (List.replicate 19 0) 1 6).map Prod.fst).Nodup) :=
  ⟨rfl, rfl, C1_single_request 1 6 busA (List.replicate 19 0) rfl rfl⟩

/-- C3 counterexample: the claim states that for every query operation a
transport fault raised by a bus read is caught, logged and turned into an
absent result; but in get_calibration the read sits outside the try block,
so on a bus whose reads raise OSError the fault propagates out of the call
instead of returning None. -/
theorem C3_calibration_read_fault_escapes :
    (get_calibration 1 6 busReadFail).result = Except.error () ∧
    (get_calibration 1 6 busReadFail).result ≠ Except.ok none := by
  constructor
  · rfl
  · intro h
    exact Except.noConfusion h

/-- C3 amended: for get_info and get_current a transport fault raised by
the bus write or the bus read is caught and turned into an absent result
(None); for get_calibration only a write fault is caught and turned into
None, while a read fault propagates out of the call uncaught. -/
theorem C3_fault_propagation : ∀ (s e : Nat) (bus : Bus),
    (bus.writeOk = false →
      (get_info bus).result = Except.ok none ∧
      (get_current s e bus).result = Except.ok none ∧
      (get_calibration s e bus).result = Except.ok none) ∧
    (bus.writeOk = true → bus.read 7 = Except.error () →
      (get_info bus).result = Except.ok none) ∧
    (bus.writeOk = true → bus.read ((e - s + 1) * 3 + 1) = Except.error () →
      (get_current s e bus).result = Except.ok none) ∧
    (bus.writeOk = true → bus.read ((e - s + 1) * 2 + 1) = Except.error () →
      (get_calibration s e bus).result = Except.error ()) := by
  intro s e bus
  refine ⟨fun hw => ?_, fun hw hr => ?_, fun hw hr => ?_, fun hw hr => ?_⟩
  · exact ⟨by simp [get_info, hw], by simp [get_current, hw], by simp [get_calibration, hw]⟩
  · simp [get_info, hw, hr]
  · simp [get_current, hw, hr]
  · simp [get_calibration, hw, hr]

/-- C3 witness: the fault-propagation properties instantiated on the
write-failing and read-failing bus fixtures at range [1, 6]. -/
theorem C3_fault_propagation_witness :
    busWriteFail.writeOk = false ∧ busReadFail.writeOk = true ∧
    busReadFail.read ((6 - 1 + 1) * 2 + 1) = Except.error () ∧
    ((get_info busWriteFail).result = Except.ok none ∧
     (get_current 1 6 busWriteFail).result = Except.ok none ∧
     (get_calibration 1 6 busWriteFail).result = Except.ok none) ∧
    (get_calibration 1 6 busReadFail).result = Except.error () :=
  ⟨rfl, rfl, rfl, (C3_fault_propagation 1 6 busWriteFail).1 rfl,
    (C3_fault_propagation 1 6 busReadFail).2.2.2 rfl rfl⟩

/-- C7: whenever checksum verification of a successfully read response
detects a mismatch, the query records a checksum-mismatch fault carrying
the expected and received values, does not raise, and still decodes and
returns a present value from the possibly-corrupt data; a checksum
mismatch never produces an absent or failed result. -/
theorem C7_checksum_advisory : ∀ (s e : Nat) (bus : Bus) (data : List Nat),
    bus.writeOk = true → verify_checksum data = true →
    (bus.read ((e - s + 1) * 3 + 1) = Except.ok data →
      (get_current s e bus).faults =
        [Fault.checksumMismatch (checksumExpected data) (checksumReceived data)] ∧
      (get_current s e bus).result = Except.ok (some (decodeCurrent data s e))) ∧
    (bus.read ((e - s + 1) * 2 + 1) = Except.ok data →
      (get_calibration s e bus).faults =
        [Fault.checksumMismatch (checksumExpected data) (checksumReceived data)] ∧
      (get_calibration s e bus).result =
        Except.ok (some (decodeCalibration data s e))) := by
  intro s e bus data hw hv
  refine ⟨fun hr => ?_, fun hr => ?_⟩
  · constructor
    · simp [get_current, hw, hr, hv]
    · simp [get_current, hw, hr]
  · constructor
    · simp [get_calibration, hw, hr, hv]
    · simp [get_calibration, hw, hr]

/-- C7 witness: the advisory-checksum property instantiated at range
[1, 6] on the bad-checksum bus fixture (19 one-bytes: plain sum of the
first 18 bytes is 18, trailing byte is 1, so a mismatch is flagged). -/
theorem C7_checksum_advisory_witness :
    busBadChecksum.writeOk = true ∧
    verify_checksum (List.replicate 19 1) = true ∧
    busBadChecksum.read ((6 - 1 + 1) * 3 + 1) = Except.ok (List.replicate 19 1) ∧
    ((get_current 1 6 busBadChecksum).faults =
       [Fault.checksumMismatch (checksumExpected (List.replicate 19 1))
         (checksumReceived (List.replicate 19 1))] ∧
     (get_current 1 6 busBadChecksum).result =
       Except.ok (some (decodeCurrent (List.replicate 19 1) 1 6))) :=
  ⟨rfl, by decide, rfl,
    (C7_checksum_advisory 1 6 busBadChecksum (List.replicate 19 1) rfl (by decide)).1 rfl⟩

/-- C9: every successful current or calibration query over a range
[start, end] with start <= end returns a map with exactly end-start+1
entries whose keys are precisely the strings "SENSOR_" followed by the
channel numbers start..end, one key per channel and no other keys. -/
theorem C9_result_keys : ∀ (s e : Nat) (bus : Bus) (m : List (String × ℚ)),
    s ≤ e →
    ((get_current s e bus).result = Except.ok (some m) →
      m.map Prod.fst = (List.range' s (e - s + 1)).map sensorKey ∧
      m.length = e - s + 1 ∧ (m.map Prod.fst).Nodup) ∧
    ((get_calibration s e bus).result = Except.ok (some m) →
      m.map Prod.fst = (List.range' s (e - s + 1)).map sensorKey ∧
      m.length = e - s + 1 ∧ (m.map Prod.fst).Nodup) := by
  intro s e bus m _
  constructor
  · intro hres
    rcases hwc : bus.writeOk with _ | _
    · simp [get_current, hwc] at hres
    · rcases hrc : bus.read ((e - s + 1) * 3 + 1) with _ | data
      · simp [get_current, hwc, hrc] at hres
      · simp only [get_current, hwc, hrc, if_true] at hres
        have hm : decodeCurrent data s e = m := by
          simpa using hres
        rw [← hm]
        refine ⟨decodeCurrent_keys data s e, decodeCurrent_length data s e, ?_⟩
        rw [decodeCurrent_keys]
        exact sensorKey_range'_nodup s (e - s + 1)
  · intro hres
    rcases hwc : bus.writeOk with _ | _
    · simp [get_calibration, hwc] at hres
    · rcases hrc : bus.read ((e - s + 1) * 2 + 1) with _ | data
      · simp [get_calibration, hwc, hrc] at hres
      · simp only [get_calibration, hwc, hrc, if_true] at hres
        have hm : decodeCalibration data s e = m := by
          simpa using hres
        rw [← hm]
        refine ⟨decodeCalibration_keys data s e, decodeCalibration_length data s e, ?_⟩
        rw [decodeCalibration_keys]
        exact sensorKey_range'_nodup s (e - s + 1)

/-- C9 witness: the key-shape property instantiated at range [1, 2] on
the healthy bus fixture. -/
theorem C9_result_keys_witness :
    (1 : Nat) ≤ 2 ∧
    (get_current 1 2 busA).result =
      Except.ok (some (decodeCurrent (List.replicate 19 0) 1 2)) ∧
    ((decodeCurrent (List.replicate 19 0) 1 2).map Prod.fst =
       (List.range' 1 (2 - 1 + 1)).map sensorKey ∧
     (decodeCurrent (List.replicate 19 0) 1 2).length = 2 - 1 + 1 ∧
     ((decodeCurrent (List.replicate 19 0) 1 2).map Prod.fst).Nodup) :=
  ⟨by decide, rfl,
    (C9_result_keys 1 2 busA (decodeCurrent (List.replicate 19 0) 1 2) (by decide)).1 rfl⟩
